import Mathlib

/-!
Shallow embedding of the Jira ticket analytics Lambda, translated from
src/unnamed/part_000 (functions processTickets, calculateSeverityDistribution,
calculateResolutionTimes, calculateSLACompliance, storeMetrics).

Modelling conventions:
- JS numbers are exact rationals.  The JS NaN value that arises from
  arithmetic on an unparseable date (new Date gives Invalid Date, whose
  subtraction gives NaN) is modelled by the none case of Option Rat; any
  arithmetic involving none stays none, and a comparison with none is false,
  exactly as NaN behaves in JS.
- A JS date field is modelled by DateField: absent (missing or empty, hence
  falsy), invalid (present and truthy, but new Date cannot parse it), or
  valid with the parsed epoch-millisecond value.
- parseFloat(x.toFixed(1)) is modelled by round1, rounding to the nearest
  tenth with ties rounded up, which is the ECMAScript toFixed tie rule
  (pick the larger candidate).
- A JS object literal with keys low, medium, high, critical is modelled by
  the record SevMap, and the JS check distribution[severity] !== undefined
  by parseSeverity returning a canonical key.  The clock reads
  (new Date().toISOString() and Date.now()) are passed in explicitly.
-/

namespace Jira

/-- The four canonical severities. -/
inductive Severity
  | low
  | medium
  | high
  | critical
deriving DecidableEq, Repr

/-- A record with one field per canonical severity, modelling the JS object
literals keyed by low, medium, high, critical. -/
structure SevMap (α : Type) where
  low : α
  medium : α
  high : α
  critical : α
deriving DecidableEq, Repr

def SevMap.get {α : Type} (m : SevMap α) : Severity → α
  | .low => m.low
  | .medium => m.medium
  | .high => m.high
  | .critical => m.critical

def SevMap.modify {α : Type} (m : SevMap α) (k : Severity) (f : α → α) : SevMap α :=
  match k with
  | .low => { m with low := f m.low }
  | .medium => { m with medium := f m.medium }
  | .high => { m with high := f m.high }
  | .critical => { m with critical := f m.critical }

def SevMap.const {α : Type} (a : α) : SevMap α := ⟨a, a, a, a⟩

/-- Pointwise map, modelling the Object.keys(...).forEach update loops. -/
def SevMap.map {α β : Type} (f : α → β) (m : SevMap α) : SevMap β :=
  ⟨f m.low, f m.medium, f m.high, f m.critical⟩

/-- Pointwise map over two parallel severity records (values and counts). -/
def SevMap.map2 {α β γ : Type} (f : α → β → γ) (m : SevMap α) (n : SevMap β) : SevMap γ :=
  ⟨f m.low n.low, f m.medium n.medium, f m.high n.high, f m.critical n.critical⟩

theorem SevMap.get_const {α : Type} (a : α) (k : Severity) : (SevMap.const a).get k = a := by
  cases k <;> rfl

theorem SevMap.get_map {α β : Type} (f : α → β) (m : SevMap α) (k : Severity) :
    (m.map f).get k = f (m.get k) := by
  cases k <;> rfl

theorem SevMap.get_map2 {α β γ : Type} (f : α → β → γ) (m : SevMap α) (n : SevMap β)
    (k : Severity) : (SevMap.map2 f m n).get k = f (m.get k) (n.get k) := by
  cases k <;> rfl

theorem SevMap.get_modify_self {α : Type} (m : SevMap α) (k : Severity) (f : α → α) :
    (m.modify k f).get k = f (m.get k) := by
  cases k <;> rfl

theorem SevMap.get_modify_ne {α : Type} (m : SevMap α) (k j : Severity) (f : α → α)
    (h : j ≠ k) : (m.modify k f).get j = m.get j := by
  cases k <;> cases j <;> first | rfl | exact absurd rfl h

/-- A JS date field: missing or empty (falsy), present but unparseable
(new Date gives Invalid Date), or parseable with an epoch-millisecond value. -/
inductive DateField
  | absent
  | invalid
  | valid (ms : Int)
deriving DecidableEq, Repr

/-- JS truthiness of a date field, as tested by
`if (ticket.createdDate && ticket.resolvedDate)`. -/
def DateField.present : DateField → Bool
  | .absent => false
  | .invalid => true
  | .valid _ => true

/-- The epoch milliseconds a date field parses to, if any; none models the
NaN valueOf of an Invalid Date. -/
def DateField.parseMs : DateField → Option Int
  | .absent => none
  | .invalid => none
  | .valid ms => some ms

/-- A ticket as consumed by the analytics functions.  severity is optional
(the source reads it with optional chaining), status is a free-form string. -/
structure Ticket where
  id : String
  severity : Option String
  status : String
  createdDate : DateField
  resolvedDate : DateField
deriving DecidableEq, Repr

/-- The string key of a canonical severity. -/
def severityKey : Severity → String
  | .low => "low"
  | .medium => "medium"
  | .high => "high"
  | .critical => "critical"

/-- Models JS String.prototype.toLowerCase, lower-casing character by
character. -/
def jsToLower (s : String) : String := ⟨s.data.map Char.toLower⟩

/-- Models `ticket.severity?.toLowerCase()` followed by the lookup check
`distribution[severity] !== undefined`: some canonical key when the
lower-cased severity is one of the four, none otherwise. -/
def parseSeverity : Option String → Option Severity
  | none => none
  | some s =>
    if jsToLower s = "low" then some .low
    else if jsToLower s = "medium" then some .medium
    else if jsToLower s = "high" then some .high
    else if jsToLower s = "critical" then some .critical
    else none

/-- Models parseFloat(x.toFixed(1)): round to the nearest tenth, ties up. -/
def round1 (q : ℚ) : ℚ := ((round (q * 10) : ℤ) : ℚ) / 10

/-- The counting loop of calculateSeverityDistribution. -/
def sevStep (d : SevMap ℕ) (t : Ticket) : SevMap ℕ :=
  match parseSeverity t.severity with
  | some k => d.modify k (· + 1)
  | none => d

def countSeverity (tickets : List Ticket) : SevMap ℕ :=
  tickets.foldl sevStep (SevMap.const 0)

/-- calculateSeverityDistribution from src/unnamed/part_000 lines 156-179:
count per normalized severity, then convert each bucket to a percentage of
the ticket total with one decimal place, guarding total = 0 with 0. -/
def calculateSeverityDistribution (tickets : List Ticket) : SevMap ℚ :=
  let total : ℕ := tickets.length
  (countSeverity tickets).map (fun (c : ℕ) =>
    if total > 0 then round1 (((c : ℚ) / (total : ℚ)) * 100) else (0 : ℚ))

/-- The elapsed hours (resolved - created) / (1000 * 60 * 60) of a ticket;
none models the NaN produced when either date fails to parse. -/
def elapsedHours (t : Ticket) : Option ℚ :=
  match t.createdDate.parseMs, t.resolvedDate.parseMs with
  | some c, some r => some ((((r : ℚ) - (c : ℚ))) / 3600000)
  | _, _ => none

/-- NaN-propagating addition: the JS `acc += hoursToResolve` on numbers that
may be NaN. -/
def addNaN : Option ℚ → Option ℚ → Option ℚ
  | some a, some b => some (a + b)
  | _, _ => none

/-- Loop body of calculateResolutionTimes: state is (sums, counts). -/
def resStep (st : SevMap (Option ℚ) × SevMap ℕ) (t : Ticket) :
    SevMap (Option ℚ) × SevMap ℕ :=
  if t.createdDate.present && t.resolvedDate.present then
    match parseSeverity t.severity with
    | some k => (st.1.modify k (fun s => addNaN s (elapsedHours t)), st.2.modify k (· + 1))
    | none => st
  else st

/-- calculateResolutionTimes from src/unnamed/part_000 lines 186-223:
accumulate hours and counts per severity over tickets whose two date fields
are present (truthy), then replace each sum by the rounded average when the
count is positive, leaving the accumulated value alone otherwise. -/
def calculateResolutionTimes (tickets : List Ticket) : SevMap (Option ℚ) :=
  let st := tickets.foldl resStep (SevMap.const (some 0), SevMap.const 0)
  SevMap.map2 (fun (s : Option ℚ) (c : ℕ) =>
    if c > 0 then s.map (fun x => round1 (x / (c : ℚ))) else s) st.1 st.2

/-- The fixed SLA targets in hours (src/unnamed/part_000 lines 232-237). -/
def slaTargets : Severity → ℚ
  | .critical => 4
  | .high => 24
  | .medium => 72
  | .low => 168

/-- The JS comparison `hoursToResolve <= slaTargets[severity]`; false when
the elapsed time is NaN, as any comparison with NaN is. -/
def slaCompliantAt (t : Ticket) (k : Severity) : Bool :=
  match elapsedHours t with
  | some h => decide (h ≤ slaTargets k)
  | none => false

/-- Loop body of calculateSLACompliance: state is (compliant counts, counts). -/
def slaStep (st : SevMap ℕ × SevMap ℕ) (t : Ticket) : SevMap ℕ × SevMap ℕ :=
  if t.createdDate.present && t.resolvedDate.present then
    match parseSeverity t.severity with
    | some k =>
      ((if slaCompliantAt t k then st.1.modify k (· + 1) else st.1), st.2.modify k (· + 1))
    | none => st
  else st

/-- calculateSLACompliance from src/unnamed/part_000 lines 230-277: count
qualifying and compliant tickets per severity, then convert to a rounded
percentage when the count is positive, leaving the raw (zero) count as the
reported value otherwise. -/
def calculateSLACompliance (tickets : List Ticket) : SevMap ℚ :=
  let st := tickets.foldl slaStep (SevMap.const 0, SevMap.const 0)
  SevMap.map2 (fun (c : ℕ) (n : ℕ) =>
    if n > 0 then round1 (((c : ℚ) / (n : ℚ)) * 100) else (c : ℚ)) st.1 st.2

/-- The metrics record assembled by processTickets. -/
structure Metrics where
  projectId : String
  timestamp : String
  severityDistribution : SevMap ℚ
  averageResolutionTimes : SevMap (Option ℚ)
  slaCompliance : SevMap ℚ
  ticketCount : ℕ
  openTickets : ℕ
  resolvedTickets : ℕ
deriving DecidableEq, Repr

/-- processTickets from src/unnamed/part_000 lines 136-149.  The call
new Date().toISOString() is modelled by the explicit clock argument nowIso. -/
def processTickets (nowIso : String) (projectId : String) (tickets : List Ticket) : Metrics :=
  { projectId := projectId
    timestamp := nowIso
    severityDistribution := calculateSeverityDistribution tickets
    averageResolutionTimes := calculateResolutionTimes tickets
    slaCompliance := calculateSLACompliance tickets
    ticketCount := tickets.length
    openTickets :=
      (tickets.filter (fun t => !(t.status == "resolved") && !(t.status == "closed"))).length
    resolvedTickets :=
      (tickets.filter (fun t => t.status == "resolved" || t.status == "closed")).length }

/-- The composite DynamoDB key (projectId, timestamp). -/
structure StoreKey where
  projectId : String
  timestamp : String
deriving DecidableEq, Repr

/-- A stored item: every attribute the update expression SETs.  Since one
update writes all of them, an existing item always carries a ttl. -/
structure StoredItem where
  severityDistribution : SevMap ℚ
  averageResolutionTimes : SevMap (Option ℚ)
  slaCompliance : SevMap ℚ
  ticketCount : ℕ
  openTickets : ℕ
  resolvedTickets : ℕ
  ttl : ℤ
  updatedAt : String
deriving DecidableEq, Repr

/-- The key-value store, as an association list of items by key. -/
abbrev Store := List (StoreKey × StoredItem)

def findItem (store : Store) (k : StoreKey) : Option StoredItem :=
  (store.find? (fun p => decide (p.1 = k))).map Prod.snd

def putItem (store : Store) (k : StoreKey) (item : StoredItem) : Store :=
  match store with
  | [] => [(k, item)]
  | (k0, it0) :: rest =>
    if k0 = k then (k, item) :: rest else (k0, it0) :: putItem rest k item

/-- A JS Error as the DynamoDB SDK surfaces it: an optional code and a
message.  Errors built with new Error(msg) have no code. -/
structure JsError where
  code : Option String
  message : String
deriving DecidableEq, Repr

/-- 365 * 24 * 60 * 60, the one-year TTL offset of line 313. -/
def yearSeconds : ℤ := 365 * 24 * 60 * 60

/-- The catch block of storeMetrics (src/unnamed/part_000 lines 324-342):
three known codes are re-thrown as new Error values with contextual
messages (the source wraps the table name in single-quote characters, which
the strings below omit), every other error is re-thrown unchanged. -/
def dynamoUpdateError (tableName : String) (e : JsError) : JsError :=
  if e.code = some ("ResourceNotFoundException") then
    { code := none, message := "DynamoDB table " ++ tableName ++ " not found" }
  else if e.code = some ("ProvisionedThroughputExceededException") then
    { code := none, message := "DynamoDB write capacity exceeded. Please try again later." }
  else if e.code = some ("ValidationException") then
    { code := none, message := "DynamoDB validation error: " ++ e.message }
  else e

/-- The semantics of the UpdateExpression of lines 293-316: SET every
computed field unconditionally, SET ttl through if_not_exists (keep the
stored value when the item already exists, else the fresh value), and
return the post-write item (ReturnValues ALL_NEW). -/
def dynamoUpdate (store : Store) (k : StoreKey) (m : Metrics) (freshTtl : ℤ)
    (updatedAtVal : String) : Store × StoredItem :=
  let newItem : StoredItem :=
    { severityDistribution := m.severityDistribution
      averageResolutionTimes := m.averageResolutionTimes
      slaCompliance := m.slaCompliance
      ticketCount := m.ticketCount
      openTickets := m.openTickets
      resolvedTickets := m.resolvedTickets
      ttl := match findItem store k with
             | some existing => existing.ttl
             | none => freshTtl
      updatedAt := updatedAtVal }
  (putItem store k newItem, newItem)

/-- Whether the single store call of storeMetrics succeeds or fails, and
with which SDK error; the writer issues exactly one call and no retry
(the retry configuration lives on the injected SDK client). -/
inductive StoreCallOutcome
  | ok
  | fail (e : JsError)
deriving DecidableEq, Repr

/-- storeMetrics from src/unnamed/part_000 lines 284-343.  The clock reads
Math.floor(Date.now() / 1000) and new Date().toISOString() are the explicit
arguments nowEpochSec and nowIso; on failure the catch block maps the SDK
error through dynamoUpdateError and re-throws. -/
def storeMetrics (store : Store) (m : Metrics) (nowEpochSec : ℤ) (nowIso : String)
    (outcome : StoreCallOutcome) (tableName : String) :
    Except JsError (Store × StoredItem) :=
  match outcome with
  | .ok => .ok (dynamoUpdate store ⟨m.projectId, m.timestamp⟩ m (nowEpochSec + yearSeconds) nowIso)
  | .fail e => .error (dynamoUpdateError tableName e)

/-! Counting lemmas connecting the imperative fold loops to countP. -/

/-- Claim-side predicate for the severity distribution: the lower-cased
severity string of the ticket equals the canonical key. -/
def lowerSeverityIs (t : Ticket) (k : Severity) : Bool :=
  decide (t.severity.map jsToLower = some (severityKey k))

theorem parseSeverity_some_iff (s : String) (k : Severity) :
    parseSeverity (some s) = some k ↔ jsToLower s = severityKey k := by
  rw [show parseSeverity (some s)
      = (if jsToLower s = "low" then some Severity.low
         else if jsToLower s = "medium" then some Severity.medium
         else if jsToLower s = "high" then some Severity.high
         else if jsToLower s = "critical" then some Severity.critical
         else none) from rfl]
  by_cases h1 : jsToLower s = "low"
  · rw [h1]; cases k <;> decide
  by_cases h2 : jsToLower s = "medium"
  · rw [h2]; cases k <;> decide
  by_cases h3 : jsToLower s = "high"
  · rw [h3]; cases k <;> decide
  by_cases h4 : jsToLower s = "critical"
  · rw [h4]; cases k <;> decide
  rw [if_neg h1, if_neg h2, if_neg h3, if_neg h4]
  constructor
  · intro h; exact absurd h (by simp)
  · intro h
    cases k with
    | low => exact absurd h h1
    | medium => exact absurd h h2
    | high => exact absurd h h3
    | critical => exact absurd h h4

theorem parseSeverity_eq_lower (t : Ticket) (k : Severity) :
    (decide (parseSeverity t.severity = some k)) = lowerSeverityIs t k := by
  unfold lowerSeverityIs
  cases h : t.severity with
  | none => simp [parseSeverity]
  | some s => simp [parseSeverity_some_iff]

theorem foldl_sevStep_get (tickets : List Ticket) (d : SevMap ℕ) (k : Severity) :
    (tickets.foldl sevStep d).get k
      = d.get k + tickets.countP (fun t => decide (parseSeverity t.severity = some k)) := by
  induction tickets generalizing d with
  | nil => simp
  | cons t ts ih =>
    rw [List.foldl_cons, ih, List.countP_cons]
    have hstep : (sevStep d t).get k
        = d.get k + (if parseSeverity t.severity = some k then 1 else 0) := by
      unfold sevStep
      cases h : parseSeverity t.severity with
      | none => simp [h]
      | some j =>
        by_cases hk : j = k
        · subst hk; simp [h, SevMap.get_modify_self]
        · rw [SevMap.get_modify_ne _ _ _ _ (fun hkj => hk hkj.symm)]
          simp [h, hk]
    rw [hstep]
    by_cases hp : parseSeverity t.severity = some k <;> (simp [hp]; try omega)

theorem countSeverity_get (tickets : List Ticket) (k : Severity) :
    (countSeverity tickets).get k = tickets.countP (fun t => lowerSeverityIs t k) := by
  unfold countSeverity
  rw [foldl_sevStep_get, SevMap.get_const]
  simp only [Nat.zero_add]
  exact List.countP_congr (fun t _ => by rw [parseSeverity_eq_lower])

theorem distribution_get_eq (tickets : List Ticket) (k : Severity) :
    (calculateSeverityDistribution tickets).get k
      = if tickets.length = 0 then 0
        else round1 (100 * (tickets.countP (fun t => lowerSeverityIs t k) : ℚ)
                       / (tickets.length : ℚ)) := by
  unfold calculateSeverityDistribution
  rw [SevMap.get_map, countSeverity_get]
  by_cases h : tickets.length = 0
  · simp [h]
  · have hpos : 0 < tickets.length := Nat.pos_of_ne_zero h
    simp only [h, if_false, hpos, if_true]
    ring_nf

/-- Claim C1.  For every ticket list, the computed severity distribution maps
each of the four canonical severities to 100 * count / total rounded to one
decimal place, where count is the number of tickets whose lower-cased
severity equals that key and total the number of tickets; and when the list
is empty every percentage is 0. -/
theorem severity_distribution_formula (tickets : List Ticket) (k : Severity) :
    (calculateSeverityDistribution tickets).get k
      = if tickets.length = 0 then 0
        else round1 (100 * (tickets.countP (fun t => lowerSeverityIs t k) : ℚ)
                       / (tickets.length : ℚ)) :=
  distribution_get_eq tickets k

/-- A ticket enters the resolution-time and SLA loops at severity k when both
date fields are present (JS truthiness) and its severity normalizes to k. -/
def qualifiesAt (t : Ticket) (k : Severity) : Bool :=
  t.createdDate.present && t.resolvedDate.present
    && decide (parseSeverity t.severity = some k)

def qualifyingCount (tickets : List Ticket) (k : Severity) : ℕ :=
  tickets.countP (fun t => qualifiesAt t k)

def compliantCount (tickets : List Ticket) (k : Severity) : ℕ :=
  tickets.countP (fun t => qualifiesAt t k && slaCompliantAt t k)

/-- The accumulated (NaN-propagating) sum of elapsed hours over the
qualifying tickets at severity k. -/
def qualifyingSum (tickets : List Ticket) (k : Severity) : Option ℚ :=
  (tickets.filter (fun t => qualifiesAt t k)).foldl
    (fun a t => addNaN a (elapsedHours t)) (some 0)

theorem slaStep_fst_get (st : SevMap ℕ × SevMap ℕ) (t : Ticket) (k : Severity) :
    (slaStep st t).1.get k
      = st.1.get k + (if qualifiesAt t k && slaCompliantAt t k then 1 else 0) := by
  unfold slaStep qualifiesAt
  by_cases hd : (t.createdDate.present && t.resolvedDate.present : Bool)
  · cases hps : parseSeverity t.severity with
    | none => simp [hps, hd]
    | some j =>
      by_cases hk : j = k
      · rw [hk]
        by_cases hc : slaCompliantAt t k <;>
          simp [hd, hc, SevMap.get_modify_self]
      · have hne : k ≠ j := fun h => hk h.symm
        by_cases hc : slaCompliantAt t j <;>
          simp [hps, hd, hc, hk, SevMap.get_modify_ne _ _ _ _ hne]
  · simp [hd]

theorem slaStep_snd_get (st : SevMap ℕ × SevMap ℕ) (t : Ticket) (k : Severity) :
    (slaStep st t).2.get k = st.2.get k + (if qualifiesAt t k then 1 else 0) := by
  unfold slaStep qualifiesAt
  by_cases hd : (t.createdDate.present && t.resolvedDate.present : Bool)
  · cases hps : parseSeverity t.severity with
    | none => simp [hps, hd]
    | some j =>
      by_cases hk : j = k
      · rw [hk]
        by_cases hc : slaCompliantAt t k <;>
          simp [hd, hc, SevMap.get_modify_self]
      · have hne : k ≠ j := fun h => hk h.symm
        by_cases hc : slaCompliantAt t j <;>
          simp [hps, hd, hc, hk, SevMap.get_modify_ne _ _ _ _ hne]
  · simp [hd]

theorem foldl_slaStep_fst (tickets : List Ticket) (c n : SevMap ℕ) (k : Severity) :
    (tickets.foldl slaStep (c, n)).1.get k
      = c.get k + tickets.countP (fun t => qualifiesAt t k && slaCompliantAt t k) := by
  induction tickets generalizing c n with
  | nil => simp
  | cons t ts ih =>
    have ih2 := ih (slaStep (c, n) t).1 (slaStep (c, n) t).2
    rw [show ((slaStep (c, n) t).1, (slaStep (c, n) t).2) = slaStep (c, n) t from rfl] at ih2
    rw [List.foldl_cons, ih2, slaStep_fst_get, List.countP_cons]
    by_cases hq : (qualifiesAt t k && slaCompliantAt t k : Bool) <;> (simp [hq]; try omega)

theorem foldl_slaStep_snd (tickets : List Ticket) (c n : SevMap ℕ) (k : Severity) :
    (tickets.foldl slaStep (c, n)).2.get k
      = n.get k + tickets.countP (fun t => qualifiesAt t k) := by
  induction tickets generalizing c n with
  | nil => simp
  | cons t ts ih =>
    have ih2 := ih (slaStep (c, n) t).1 (slaStep (c, n) t).2
    rw [show ((slaStep (c, n) t).1, (slaStep (c, n) t).2) = slaStep (c, n) t from rfl] at ih2
    rw [List.foldl_cons, ih2, slaStep_snd_get, List.countP_cons]
    by_cases hq : qualifiesAt t k <;> (simp [hq]; try omega)

theorem compliantCount_le (tickets : List Ticket) (k : Severity) :
    compliantCount tickets k ≤ qualifyingCount tickets k := by
  unfold compliantCount qualifyingCount
  exact List.countP_mono_left (fun t _ h => by
    exact (Bool.and_elim_left h))

theorem sla_get_eq (tickets : List Ticket) (k : Severity) :
    (calculateSLACompliance tickets).get k
      = if qualifyingCount tickets k = 0 then 0
        else round1 (100 * (compliantCount tickets k : ℚ)
                       / (qualifyingCount tickets k : ℚ)) := by
  unfold calculateSLACompliance
  rw [SevMap.get_map2, foldl_slaStep_fst, foldl_slaStep_snd]
  simp only [SevMap.get_const, Nat.zero_add]
  rw [show List.countP (fun t => qualifiesAt t k) tickets
        = qualifyingCount tickets k from rfl,
      show List.countP (fun t => qualifiesAt t k && slaCompliantAt t k) tickets
        = compliantCount tickets k from rfl]
  by_cases h : qualifyingCount tickets k = 0
  · have hc : compliantCount tickets k = 0 :=
      Nat.le_zero.mp (h ▸ compliantCount_le tickets k)
    simp [h, hc]
  · rw [if_pos (Nat.pos_of_ne_zero h), if_neg h]
    ring_nf

/-- Claim C3.  slaCompliance maps each canonical severity to
100 * compliant / qualifying rounded to one decimal place, where a ticket
qualifies when it carries both dates and a recognized severity and is
compliant exactly when its elapsed hours are at most the fixed target for
that severity; the targets are critical 4, high 24, medium 72, low 168, and
a severity with zero qualifying tickets reports 0. -/
theorem sla_compliance_formula (tickets : List Ticket) (k : Severity) :
    ((calculateSLACompliance tickets).get k
      = if qualifyingCount tickets k = 0 then 0
        else round1 (100 * (compliantCount tickets k : ℚ)
                       / (qualifyingCount tickets k : ℚ)))
    ∧ slaTargets .critical = 4 ∧ slaTargets .high = 24
    ∧ slaTargets .medium = 72 ∧ slaTargets .low = 168 :=
  ⟨sla_get_eq tickets k, rfl, rfl, rfl, rfl⟩

theorem resStep_fst_get (st : SevMap (Option ℚ) × SevMap ℕ) (t : Ticket) (k : Severity) :
    (resStep st t).1.get k
      = if qualifiesAt t k then addNaN (st.1.get k) (elapsedHours t) else st.1.get k := by
  unfold resStep qualifiesAt
  by_cases hd : (t.createdDate.present && t.resolvedDate.present : Bool)
  · cases hps : parseSeverity t.severity with
    | none => simp [hps, hd]
    | some j =>
      by_cases hk : j = k
      · rw [hk]
        simp [hd, SevMap.get_modify_self]
      · have hne : k ≠ j := fun h => hk h.symm
        simp [hps, hd, hk, SevMap.get_modify_ne _ _ _ _ hne]
  · simp [hd]

theorem resStep_snd_get (st : SevMap (Option ℚ) × SevMap ℕ) (t : Ticket) (k : Severity) :
    (resStep st t).2.get k = st.2.get k + (if qualifiesAt t k then 1 else 0) := by
  unfold resStep qualifiesAt
  by_cases hd : (t.createdDate.present && t.resolvedDate.present : Bool)
  · cases hps : parseSeverity t.severity with
    | none => simp [hps, hd]
    | some j =>
      by_cases hk : j = k
      · rw [hk]
        simp [hd, SevMap.get_modify_self]
      · have hne : k ≠ j := fun h => hk h.symm
        simp [hps, hd, hk, SevMap.get_modify_ne _ _ _ _ hne]
  · simp [hd]

theorem foldl_resStep_fst (tickets : List Ticket) (s : SevMap (Option ℚ)) (n : SevMap ℕ)
    (k : Severity) :
    (tickets.foldl resStep (s, n)).1.get k
      = (tickets.filter (fun t => qualifiesAt t k)).foldl
          (fun a t => addNaN a (elapsedHours t)) (s.get k) := by
  induction tickets generalizing s n with
  | nil => simp
  | cons t ts ih =>
    have ih2 := ih (resStep (s, n) t).1 (resStep (s, n) t).2
    rw [show ((resStep (s, n) t).1, (resStep (s, n) t).2) = resStep (s, n) t from rfl] at ih2
    rw [List.foldl_cons, ih2, resStep_fst_get, List.filter_cons]
    by_cases hq : qualifiesAt t k <;> simp [hq]

theorem foldl_resStep_snd (tickets : List Ticket) (s : SevMap (Option ℚ)) (n : SevMap ℕ)
    (k : Severity) :
    (tickets.foldl resStep (s, n)).2.get k
      = n.get k + tickets.countP (fun t => qualifiesAt t k) := by
  induction tickets generalizing s n with
  | nil => simp
  | cons t ts ih =>
    have ih2 := ih (resStep (s, n) t).1 (resStep (s, n) t).2
    rw [show ((resStep (s, n) t).1, (resStep (s, n) t).2) = resStep (s, n) t from rfl] at ih2
    rw [List.foldl_cons, ih2, resStep_snd_get, List.countP_cons]
    by_cases hq : qualifiesAt t k <;> (simp [hq]; try omega)

theorem qualifyingSum_of_count_zero (tickets : List Ticket) (k : Severity)
    (h : qualifyingCount tickets k = 0) : qualifyingSum tickets k = some 0 := by
  unfold qualifyingSum
  unfold qualifyingCount at h
  have h2 := List.countP_eq_zero.mp h
  have hnil : tickets.filter (fun t => qualifiesAt t k) = [] :=
    List.filter_eq_nil_iff.mpr h2
  rw [hnil]
  rfl

theorem res_get_eq (tickets : List Ticket) (k : Severity) :
    (calculateResolutionTimes tickets).get k
      = if qualifyingCount tickets k = 0 then some 0
        else (qualifyingSum tickets k).map
              (fun s => round1 (s / (qualifyingCount tickets k : ℚ))) := by
  unfold calculateResolutionTimes
  rw [SevMap.get_map2, foldl_resStep_fst, foldl_resStep_snd]
  simp only [SevMap.get_const, Nat.zero_add]
  rw [show (tickets.filter (fun t => qualifiesAt t k)).foldl
        (fun a t => addNaN a (elapsedHours t)) (some 0)
          = qualifyingSum tickets k from rfl,
      show List.countP (fun t => qualifiesAt t k) tickets
        = qualifyingCount tickets k from rfl]
  by_cases h : qualifyingCount tickets k = 0
  · rw [if_neg (by omega), if_pos h, qualifyingSum_of_count_zero tickets k h]
  · rw [if_pos (Nat.pos_of_ne_zero h), if_neg h]

/-- Claim C4, amended.  averageResolutionTimes maps each canonical severity
to the rounded average of elapsed hours over exactly the tickets whose two
date fields are present (whether parseable or not) and whose severity is
recognized; a present but unparseable date is not excluded: it still counts
toward the denominator of both the resolution-time average and the SLA
compliance, and its NaN elapsed time propagates so that the reported average
is NaN (none); a severity with zero such tickets reports 0. -/
theorem resolution_times_formula (tickets : List Ticket) (k : Severity) :
    ((calculateResolutionTimes tickets).get k
      = if qualifyingCount tickets k = 0 then some 0
        else (qualifyingSum tickets k).map
              (fun s => round1 (s / (qualifyingCount tickets k : ℚ))))
    ∧ ((calculateSLACompliance tickets).get k
      = if qualifyingCount tickets k = 0 then 0
        else round1 (100 * (compliantCount tickets k : ℚ)
                       / (qualifyingCount tickets k : ℚ))) :=
  ⟨res_get_eq tickets k, sla_get_eq tickets k⟩

/-- A ticket whose resolvedDate is present but unparseable. -/
def cexTicketInvalid : Ticket :=
  { id := "T1", severity := some ("high"), status := "open",
    createdDate := .valid 0, resolvedDate := .invalid }

/-- The same ticket with the resolvedDate missing instead. -/
def cexTicketAbsent : Ticket :=
  { id := "T1", severity := some ("high"), status := "open",
    createdDate := .valid 0, resolvedDate := .absent }

/-- A high ticket resolved after exactly one hour. -/
def cexTicketOk : Ticket :=
  { id := "T2", severity := some ("high"), status := "resolved",
    createdDate := .valid 0, resolvedDate := .valid 3600000 }

/-- Counterexample to claim C4 as stated: a present but unparseable
resolvedDate is NOT treated like an absent one.  With the unparseable date
the average for high is NaN (none) where the claim requires 0, and the
SLA denominator still counts the ticket, reporting 50 where the claim
requires 100. -/
theorem resolution_unparseable_counterexample :
    (calculateResolutionTimes [cexTicketInvalid]).get .high = none
    ∧ (calculateResolutionTimes [cexTicketAbsent]).get .high = some 0
    ∧ (calculateSLACompliance [cexTicketInvalid, cexTicketOk]).get .high = 50
    ∧ (calculateSLACompliance [cexTicketAbsent, cexTicketOk]).get .high = 100 := by
  with_unfolding_all decide

/-- Claim C5.  A ticket with a missing or unrecognized severity never
disturbs the analytics (the functions are total, mirroring the optional
chaining of the source): it is excluded from the severity buckets, from the
resolution-time aggregates and from the SLA aggregates, yet it still counts
toward ticketCount and toward the total used as the distribution
denominator. -/
theorem unrecognized_severity_tolerated (t : Ticket) (ts : List Ticket)
    (p now : String) (k : Severity)
    (h : parseSeverity t.severity = none) :
    countSeverity (t :: ts) = countSeverity ts
    ∧ calculateResolutionTimes (t :: ts) = calculateResolutionTimes ts
    ∧ calculateSLACompliance (t :: ts) = calculateSLACompliance ts
    ∧ (processTickets now p (t :: ts)).ticketCount
        = (processTickets now p ts).ticketCount + 1
    ∧ (calculateSeverityDistribution (t :: ts)).get k
        = round1 ((((countSeverity ts).get k : ℚ) / ((ts.length : ℚ) + 1)) * 100) := by
  have hsev : sevStep (SevMap.const 0) t = SevMap.const 0 := by
    simp [sevStep, h]
  have hres : ∀ st : SevMap (Option ℚ) × SevMap ℕ, resStep st t = st := by
    intro st; simp [resStep, h]
  have hsla : ∀ st : SevMap ℕ × SevMap ℕ, slaStep st t = st := by
    intro st; simp [slaStep, h]
  refine ⟨?_, ?_, ?_, ?_, ?_⟩
  · unfold countSeverity
    rw [List.foldl_cons, hsev]
  · unfold calculateResolutionTimes
    rw [List.foldl_cons, hres]
  · unfold calculateSLACompliance
    rw [List.foldl_cons, hsla]
  · simp [processTickets]
  · unfold calculateSeverityDistribution
    rw [SevMap.get_map]
    have hc : (countSeverity (t :: ts)).get k = (countSeverity ts).get k := by
      unfold countSeverity
      rw [List.foldl_cons, hsev]
    rw [hc, List.length_cons, if_pos (Nat.succ_pos ts.length)]
    push_cast
    ring_nf

/-- A ticket whose severity is not one of the four canonical values. -/
def cexUnrecognized : Ticket :=
  { id := "T3", severity := some ("unforeseen"), status := "open",
    createdDate := .absent, resolvedDate := .absent }

/-- A recognized low ticket with no dates. -/
def witLowTicket : Ticket :=
  { id := "W1", severity := some ("low"), status := "open",
    createdDate := .absent, resolvedDate := .absent }

theorem unrecognized_severity_tolerated_witness :
    parseSeverity cexUnrecognized.severity = none
    ∧ (countSeverity (cexUnrecognized :: [witLowTicket]) = countSeverity [witLowTicket]
    ∧ calculateResolutionTimes (cexUnrecognized :: [witLowTicket])
        = calculateResolutionTimes [witLowTicket]
    ∧ calculateSLACompliance (cexUnrecognized :: [witLowTicket])
        = calculateSLACompliance [witLowTicket]
    ∧ (processTickets "2024-05-01T00:00:00.000Z" "PROJ"
          (cexUnrecognized :: [witLowTicket])).ticketCount
        = (processTickets "2024-05-01T00:00:00.000Z" "PROJ" [witLowTicket]).ticketCount + 1
    ∧ (calculateSeverityDistribution (cexUnrecognized :: [witLowTicket])).get .low
        = round1 ((((countSeverity [witLowTicket]).get .low : ℚ)
            / (([witLowTicket].length : ℚ) + 1)) * 100)) :=
  ⟨by decide,
    unrecognized_severity_tolerated cexUnrecognized [witLowTicket]
      "PROJ" "2024-05-01T00:00:00.000Z" .low (by decide)⟩

/-- Claim C7.  resolvedTickets counts exactly the tickets whose status is
the case-sensitive string resolved or closed, openTickets counts all the
others, and ticketCount always equals openTickets + resolvedTickets. -/
theorem ticket_count_split (tickets : List Ticket) (p now : String) :
    (processTickets now p tickets).resolvedTickets
        = tickets.countP (fun t => t.status == "resolved" || t.status == "closed")
    ∧ (processTickets now p tickets).openTickets
        = tickets.countP (fun t => !(t.status == "resolved" || t.status == "closed"))
    ∧ (processTickets now p tickets).ticketCount
        = (processTickets now p tickets).openTickets
            + (processTickets now p tickets).resolvedTickets := by
  refine ⟨?_, ?_, ?_⟩
  · simp [processTickets, List.countP_eq_length_filter]
  · simp [processTickets, List.countP_eq_length_filter, Bool.not_or]
  · show tickets.length = _ + _
    simp only [processTickets]
    have hpq : ∀ t : Ticket,
        (!(t.status == "resolved") && !(t.status == "closed"))
          = !(t.status == "resolved" || t.status == "closed") := by
      intro t
      cases t.status == "resolved" <;> cases t.status == "closed" <;> rfl
    induction tickets with
    | nil => rfl
    | cons t ts ih =>
      rw [List.length_cons, List.filter_cons, List.filter_cons, hpq t]
      cases hr : (t.status == "resolved" || t.status == "closed" : Bool) <;>
        (simp [hr, ih]; try omega)

/-- Claim C9, amended.  compute is a pure function of its declared inputs
together with the clock reading taken at invocation: the clock affects only
the timestamp field, so two invocations with equal clock readings yield
equal records and all other fields agree regardless of the clock.  (Absence
of side effects is intrinsic to the embedding: processTickets consumes its
argument list and returns a fresh record.) -/
theorem compute_pure_modulo_clock (n1 n2 p : String) (tickets : List Ticket) :
    processTickets n1 p tickets = { processTickets n2 p tickets with timestamp := n1 } :=
  rfl

/-- Counterexample to claim C9 as stated: the source stamps the record with
new Date().toISOString(), so two invocations of compute on the very same
(projectId, tickets) input at different instants produce records that are
not equal (their timestamp fields differ). -/
theorem compute_clock_counterexample :
    processTickets "2024-01-01T00:00:00.000Z" "PROJ" [cexTicketOk]
      ≠ processTickets "2024-01-01T00:00:00.001Z" "PROJ" [cexTicketOk] := by
  intro h
  exact absurd (congrArg Metrics.timestamp h) (by decide)

theorem round1_nonneg (q : ℚ) (h : 0 ≤ q) : 0 ≤ round1 q := by
  unfold round1
  apply div_nonneg _ (by norm_num : (0:ℚ) ≤ 10)
  have hz : (0:ℤ) ≤ round (q * 10) := by
    rw [round_eq]
    exact Int.le_floor.mpr (by push_cast; linarith)
  exact_mod_cast hz

theorem round1_le_100 (q : ℚ) (h : q ≤ 100) : round1 q ≤ 100 := by
  unfold round1
  rw [div_le_iff₀ (by norm_num : (0:ℚ) < 10)]
  have hz : round (q * 10) ≤ 1000 := by
    rw [round_eq]
    have hlt : ⌊q * 10 + 1/2⌋ < 1001 := Int.floor_lt.mpr (by push_cast; linarith)
    omega
  calc ((round (q * 10) : ℤ) : ℚ) ≤ ((1000 : ℤ) : ℚ) := by exact_mod_cast hz
    _ = 100 * 10 := by norm_num

/-- Claim C10.  Every value of the computed severityDistribution and
slaCompliance maps lies between 0 and 100 inclusive, for every ticket list,
including lists with unrecognized severities or inverted date ranges: each
bucket count never exceeds its denominator and zero-denominator buckets
report 0. -/
theorem percentages_within_range (tickets : List Ticket) (k : Severity) :
    (0 ≤ (calculateSeverityDistribution tickets).get k
      ∧ (calculateSeverityDistribution tickets).get k ≤ 100)
    ∧ (0 ≤ (calculateSLACompliance tickets).get k
      ∧ (calculateSLACompliance tickets).get k ≤ 100) := by
  constructor
  · rw [distribution_get_eq]
    by_cases h : tickets.length = 0
    · simp [h]
    · have hpos : (0:ℚ) < (tickets.length : ℚ) := by
        exact_mod_cast Nat.pos_of_ne_zero h
      have hcle : ((tickets.countP (fun t => lowerSeverityIs t k) : ℕ) : ℚ)
          ≤ ((tickets.length : ℕ) : ℚ) := by
        exact_mod_cast List.countP_le_length (fun t => lowerSeverityIs t k)
      have hc0 : (0:ℚ) ≤ ((tickets.countP (fun t => lowerSeverityIs t k) : ℕ) : ℚ) := by
        positivity
      rw [if_neg h]
      refine ⟨round1_nonneg _ (by positivity), round1_le_100 _ ?_⟩
      rw [div_le_iff₀ hpos]
      nlinarith
  · rw [sla_get_eq]
    by_cases h : qualifyingCount tickets k = 0
    · simp [h]
    · have hpos : (0:ℚ) < ((qualifyingCount tickets k : ℕ) : ℚ) := by
        exact_mod_cast Nat.pos_of_ne_zero h
      have hcle : ((compliantCount tickets k : ℕ) : ℚ)
          ≤ ((qualifyingCount tickets k : ℕ) : ℚ) := by
        exact_mod_cast compliantCount_le tickets k
      have hc0 : (0:ℚ) ≤ ((compliantCount tickets k : ℕ) : ℚ) := by positivity
      rw [if_neg h]
      refine ⟨round1_nonneg _ (by positivity), round1_le_100 _ ?_⟩
      rw [div_le_iff₀ hpos]
      nlinarith

/-- A ticket is recognized when its severity normalizes to one of the four
canonical keys. -/
def recognizedB (t : Ticket) : Bool := (parseSeverity t.severity).isSome

def sumSevN (m : SevMap ℕ) : ℕ := m.low + m.medium + m.high + m.critical

theorem sumSevN_sevStep (d : SevMap ℕ) (t : Ticket) :
    sumSevN (sevStep d t) = sumSevN d + (if recognizedB t then 1 else 0) := by
  unfold sevStep recognizedB
  cases h : parseSeverity t.severity with
  | none => simp [h]
  | some j => cases j <;> (simp [h, sumSevN, SevMap.modify]; try omega)

theorem foldl_sevStep_sum (tickets : List Ticket) (d : SevMap ℕ) :
    sumSevN (tickets.foldl sevStep d) = sumSevN d + tickets.countP recognizedB := by
  induction tickets generalizing d with
  | nil => simp
  | cons t ts ih =>
    rw [List.foldl_cons, ih, sumSevN_sevStep, List.countP_cons]
    by_cases hr : recognizedB t <;> (simp [hr]; try omega)

theorem abs_round1_sub (q : ℚ) : |round1 q - q| ≤ 1/20 := by
  have h := abs_sub_round (q * 10)
  rw [abs_sub_comm] at h
  have e : round1 q - q = (((round (q * 10) : ℤ) : ℚ) - q * 10) / 10 := by
    unfold round1; ring
  rw [e, abs_div, abs_of_pos (by norm_num : (0:ℚ) < 10)]
  linarith

/-- Claim C6, amended.  For every non-empty ticket list in which every
ticket carries a recognized severity, the four severityDistribution values
sum to within 0.4 of 100.  (Without the recognized-severity hypothesis the
claim fails: unrecognized tickets inflate the denominator while landing in
no bucket, see the counterexample.) -/
theorem distribution_sum_approx (tickets : List Ticket)
    (hne : tickets ≠ [])
    (hrec : tickets.countP recognizedB = tickets.length) :
    |(calculateSeverityDistribution tickets).low
      + (calculateSeverityDistribution tickets).medium
      + (calculateSeverityDistribution tickets).high
      + (calculateSeverityDistribution tickets).critical - 100| ≤ 2/5 := by
  have hpos : 0 < tickets.length := List.length_pos.mpr hne
  have h2 := foldl_sevStep_sum tickets (SevMap.const 0)
  rw [hrec] at h2
  have hsum : sumSevN (countSeverity tickets) = tickets.length := by
    unfold countSeverity
    rw [h2]
    simp [sumSevN, SevMap.const]
  unfold sumSevN at hsum
  simp only [calculateSeverityDistribution, SevMap.map]
  rw [if_pos hpos, if_pos hpos, if_pos hpos, if_pos hpos]
  have hnq : (0:ℚ) < (tickets.length : ℚ) := by exact_mod_cast hpos
  have hcast : ((countSeverity tickets).low : ℚ) + ((countSeverity tickets).medium : ℚ)
      + ((countSeverity tickets).high : ℚ) + ((countSeverity tickets).critical : ℚ)
      = (tickets.length : ℚ) := by
    exact_mod_cast hsum
  have hxsum : (((countSeverity tickets).low : ℚ) / (tickets.length : ℚ)) * 100
      + (((countSeverity tickets).medium : ℚ) / (tickets.length : ℚ)) * 100
      + (((countSeverity tickets).high : ℚ) / (tickets.length : ℚ)) * 100
      + (((countSeverity tickets).critical : ℚ) / (tickets.length : ℚ)) * 100 = 100 := by
    field_simp
    linarith
  have b1 := abs_le.mp (abs_round1_sub
    ((((countSeverity tickets).low : ℚ) / (tickets.length : ℚ)) * 100))
  have b2 := abs_le.mp (abs_round1_sub
    ((((countSeverity tickets).medium : ℚ) / (tickets.length : ℚ)) * 100))
  have b3 := abs_le.mp (abs_round1_sub
    ((((countSeverity tickets).high : ℚ) / (tickets.length : ℚ)) * 100))
  have b4 := abs_le.mp (abs_round1_sub
    ((((countSeverity tickets).critical : ℚ) / (tickets.length : ℚ)) * 100))
  rw [abs_le]
  constructor <;> linarith

/-- Counterexample to claim C6 as stated: a non-empty list whose only
ticket has an unrecognized severity yields a distribution of four zeros,
whose sum 0 is not within 0.4 of 100. -/
theorem distribution_sum_counterexample :
    ¬(|(calculateSeverityDistribution [cexUnrecognized]).low
        + (calculateSeverityDistribution [cexUnrecognized]).medium
        + (calculateSeverityDistribution [cexUnrecognized]).high
        + (calculateSeverityDistribution [cexUnrecognized]).critical - 100| ≤ 2/5) := by
  with_unfolding_all decide

theorem distribution_sum_approx_witness :
    ([witLowTicket] ≠ ([] : List Ticket)
      ∧ [witLowTicket].countP recognizedB = [witLowTicket].length)
    ∧ |(calculateSeverityDistribution [witLowTicket]).low
        + (calculateSeverityDistribution [witLowTicket]).medium
        + (calculateSeverityDistribution [witLowTicket]).high
        + (calculateSeverityDistribution [witLowTicket]).critical - 100| ≤ 2/5 :=
  ⟨⟨by decide, by decide⟩,
    distribution_sum_approx [witLowTicket] (by decide) (by decide)⟩

theorem findItem_putItem (store : Store) (k : StoreKey) (item : StoredItem) :
    findItem (putItem store k item) k = some item := by
  induction store with
  | nil => simp [putItem, findItem, List.find?]
  | cons p rest ih =>
    obtain ⟨k0, it0⟩ := p
    by_cases hk : k0 = k
    · simp [putItem, hk, findItem, List.find?]
    · unfold putItem
      rw [if_neg hk]
      unfold findItem
      rw [List.find?_cons_of_neg _ (by simp [hk])]
      exact ih

/-- Claim C2.  Persisting twice under the same (projectId, timestamp) key:
the first persist of a fresh key writes its freshly computed ttl, the second
persist overwrites every computed metric field with its own values but reads
the ttl back from the store (if_not_exists), so the record observed after
the second persist carries the first persist expiration, not the second
freshly computed one. -/
theorem ttl_set_once (store : Store) (m1 m2 : Metrics) (e1 e2 : ℤ)
    (i1 i2 tb : String) (r1 r2 : Store × StoredItem)
    (hpid : m2.projectId = m1.projectId) (hts : m2.timestamp = m1.timestamp)
    (habsent : findItem store ⟨m1.projectId, m1.timestamp⟩ = none)
    (h1 : storeMetrics store m1 e1 i1 .ok tb = .ok r1)
    (h2 : storeMetrics r1.1 m2 e2 i2 .ok tb = .ok r2) :
    r1.2.ttl = e1 + yearSeconds
    ∧ r2.2.ttl = e1 + yearSeconds
    ∧ r2.2.severityDistribution = m2.severityDistribution
    ∧ r2.2.averageResolutionTimes = m2.averageResolutionTimes
    ∧ r2.2.slaCompliance = m2.slaCompliance
    ∧ r2.2.ticketCount = m2.ticketCount
    ∧ r2.2.openTickets = m2.openTickets
    ∧ r2.2.resolvedTickets = m2.resolvedTickets := by
  have hr1 : r1 = dynamoUpdate store ⟨m1.projectId, m1.timestamp⟩ m1 (e1 + yearSeconds) i1 :=
    (Except.ok.inj h1).symm
  have hr2 : r2 = dynamoUpdate r1.1 ⟨m2.projectId, m2.timestamp⟩ m2 (e2 + yearSeconds) i2 :=
    (Except.ok.inj h2).symm
  subst hr1
  subst hr2
  have hkey : (⟨m2.projectId, m2.timestamp⟩ : StoreKey) = ⟨m1.projectId, m1.timestamp⟩ := by
    rw [hpid, hts]
  rw [hkey]
  simp [dynamoUpdate, habsent, findItem_putItem]

/-- The metrics record used by the persistence witnesses. -/
def witMetricsA : Metrics :=
  { projectId := "P1", timestamp := "2024-01-01T00:00:00.000Z",
    severityDistribution := SevMap.const 0,
    averageResolutionTimes := SevMap.const (some 0),
    slaCompliance := SevMap.const 0,
    ticketCount := 0, openTickets := 0, resolvedTickets := 0 }

/-- A second computation for the same key with different metric values. -/
def witMetricsB : Metrics :=
  { witMetricsA with ticketCount := 7, severityDistribution := SevMap.const 25 }

def witPersist1 : Store × StoredItem :=
  dynamoUpdate [] ⟨"P1", "2024-01-01T00:00:00.000Z"⟩ witMetricsA (0 + yearSeconds) "u1"

def witPersist2 : Store × StoredItem :=
  dynamoUpdate witPersist1.1 ⟨"P1", "2024-01-01T00:00:00.000Z"⟩ witMetricsB
    (9999 + yearSeconds) "u2"

theorem ttl_set_once_witness :
    witPersist1.2.ttl = 0 + yearSeconds
    ∧ witPersist2.2.ttl = 0 + yearSeconds
    ∧ witPersist2.2.severityDistribution = witMetricsB.severityDistribution
    ∧ witPersist2.2.averageResolutionTimes = witMetricsB.averageResolutionTimes
    ∧ witPersist2.2.slaCompliance = witMetricsB.slaCompliance
    ∧ witPersist2.2.ticketCount = witMetricsB.ticketCount
    ∧ witPersist2.2.openTickets = witMetricsB.openTickets
    ∧ witPersist2.2.resolvedTickets = witMetricsB.resolvedTickets :=
  ttl_set_once [] witMetricsA witMetricsB 0 9999 "u1" "u2" "MetricsHistory"
    witPersist1 witPersist2 rfl rfl rfl rfl rfl

theorem neq_of_char9 {s1 s2 : String} {c1 c2 : Char} (h1 : s1.data[9]? = some c1)
    (h2 : s2.data[9]? = some c2) (hne : c1 ≠ c2) : s1 ≠ s2 := by
  intro h
  rw [h, h2] at h1
  exact hne (Option.some.inj h1).symm

theorem rnf_msg_char (tb : String) :
    ("DynamoDB table " ++ tb ++ " not found").data[9]? = some ('t') := by
  rw [String.data_append, String.data_append]
  rw [List.getElem?_append, if_pos (by
    rw [List.length_append]
    have h15 : ("DynamoDB table ").data.length = 15 := by decide
    omega)]
  rw [List.getElem?_append, if_pos (by decide)]
  decide

theorem pte_msg_char :
    ("DynamoDB write capacity exceeded. Please try again later.").data[9]?
      = some ('w') := by
  decide

theorem ve_msg_char (m : String) :
    ("DynamoDB validation error: " ++ m).data[9]? = some ('v') := by
  rw [String.data_append]
  rw [List.getElem?_append, if_pos (by decide)]
  decide

/-- Claim C8.  A failed store call always surfaces as an error to the
caller (never swallowed), the writer performing no retry of its own: the
three named kinds are re-raised as context-bearing messages that remain
pairwise distinguishable (so the caller can still tell the failure kind
apart), and every other store error propagates completely unchanged, its
original code included. -/
theorem store_errors_surfaced (store : Store) (m : Metrics) (ep : ℤ)
    (iso tb m1 m2 m3 : String) (e : JsError)
    (h1 : e.code ≠ some ("ResourceNotFoundException"))
    (h2 : e.code ≠ some ("ProvisionedThroughputExceededException"))
    (h3 : e.code ≠ some ("ValidationException")) :
    storeMetrics store m ep iso (.fail e) tb = .error e
    ∧ storeMetrics store m ep iso (.fail ⟨some ("ResourceNotFoundException"), m1⟩) tb
        = .error ⟨none, "DynamoDB table " ++ tb ++ " not found"⟩
    ∧ storeMetrics store m ep iso
          (.fail ⟨some ("ProvisionedThroughputExceededException"), m2⟩) tb
        = .error ⟨none, "DynamoDB write capacity exceeded. Please try again later."⟩
    ∧ storeMetrics store m ep iso (.fail ⟨some ("ValidationException"), m3⟩) tb
        = .error ⟨none, "DynamoDB validation error: " ++ m3⟩
    ∧ "DynamoDB table " ++ tb ++ " not found"
        ≠ "DynamoDB write capacity exceeded. Please try again later."
    ∧ "DynamoDB table " ++ tb ++ " not found" ≠ "DynamoDB validation error: " ++ m3
    ∧ "DynamoDB write capacity exceeded. Please try again later."
        ≠ "DynamoDB validation error: " ++ m3 := by
  refine ⟨?_, rfl, rfl, rfl, ?_, ?_, ?_⟩
  · show Except.error (dynamoUpdateError tb e) = Except.error e
    unfold dynamoUpdateError
    rw [if_neg h1, if_neg h2, if_neg h3]
  · exact neq_of_char9 (rnf_msg_char tb) pte_msg_char (by decide)
  · exact neq_of_char9 (rnf_msg_char tb) (ve_msg_char m3) (by decide)
  · exact neq_of_char9 pte_msg_char (ve_msg_char m3) (by decide)

/-- An SDK error of a kind the catch block does not special-case. -/
def witOtherError : JsError :=
  { code := some ("InternalServerError"), message := "transient backend fault" }

theorem store_errors_surfaced_witness :
    (witOtherError.code ≠ some ("ResourceNotFoundException")
      ∧ witOtherError.code ≠ some ("ProvisionedThroughputExceededException")
      ∧ witOtherError.code ≠ some ("ValidationException"))
    ∧ (storeMetrics [] witMetricsA 0 "u1" (.fail witOtherError) "MetricsHistory"
        = .error witOtherError
    ∧ storeMetrics [] witMetricsA 0 "u1"
          (.fail ⟨some ("ResourceNotFoundException"), "a"⟩) "MetricsHistory"
        = .error ⟨none, "DynamoDB table " ++ "MetricsHistory" ++ " not found"⟩
    ∧ storeMetrics [] witMetricsA 0 "u1"
          (.fail ⟨some ("ProvisionedThroughputExceededException"), "b"⟩) "MetricsHistory"
        = .error ⟨none, "DynamoDB write capacity exceeded. Please try again later."⟩
    ∧ storeMetrics [] witMetricsA 0 "u1"
          (.fail ⟨some ("ValidationException"), "c"⟩) "MetricsHistory"
        = .error ⟨none, "DynamoDB validation error: " ++ "c"⟩
    ∧ "DynamoDB table " ++ "MetricsHistory" ++ " not found"
        ≠ "DynamoDB write capacity exceeded. Please try again later."
    ∧ "DynamoDB table " ++ "MetricsHistory" ++ " not found"
        ≠ "DynamoDB validation error: " ++ "c"
    ∧ "DynamoDB write capacity exceeded. Please try again later."
        ≠ "DynamoDB validation error: " ++ "c") :=
  ⟨⟨by decide, by decide, by decide⟩,
    store_errors_surfaced [] witMetricsA 0 "u1" "MetricsHistory" "a" "b" "c"
      witOtherError (by decide) (by decide) (by decide)⟩

end Jira
